import Mathlib

/-!
Shallow embedding of the bazarr-subsource repository core logic
(src/core/tracking.py, src/api/subsource.py, src/api/bazarr.py) and
verification of the specification claims about it.

Conventions of the embedding:
* Python dicts holding the tracking ledger become association lists in
  insertion order; dict lookup takes the first matching key.
* Stored timestamp strings are abstracted by the type TSVal: a string either
  parses under datetime.fromisoformat to an integer time (TSVal.valid t,
  measured in seconds) or it does not (TSVal.malformed s, carrying the raw
  string so Python truthiness of the string is still observable).
* Python truthiness of optional values is modelled explicitly (None and the
  empty string and the integer 0 are falsy).
* Regular-expression searches used by the code are implemented as leftmost
  scans with maximal digit and whitespace runs; for the concrete patterns in
  the source this coincides with the Python regex semantics because a shorter
  run can never be followed by the required next character class.
* Character classes are modelled over ASCII, which covers every string the
  claims quantify over.
-/

namespace BazarrSubsource

/-- ASCII whitespace as matched by Python str.strip and the regex class \s. -/
def isPySpace (c : Char) : Bool :=
  c = ' ' || c = '\t' || c = '\n' || c = '\r' || c = '\x0b' || c = '\x0c'

/-- Drop leading and trailing whitespace, as Python str.strip does. -/
def stripChars (cs : List Char) : List Char :=
  ((cs.dropWhile isPySpace).reverse.dropWhile isPySpace).reverse

/-- Python str.strip on strings. -/
def pyStrip (s : String) : String :=
  String.mk (stripChars s.data)

/-- Python str.lower, over ASCII letters (kernel-reducible, unlike the
position-based core String.toLower). -/
def pyLower (s : String) : String :=
  String.mk (s.data.map Char.toLower)

/-- Replace every maximal whitespace run by a single space: the effect of
Python re.sub applied with the all-whitespace pattern and a space. The Bool
argument records whether the previous character was part of a whitespace
run. -/
def collapseWS : List Char → Bool → List Char
  | [], _ => []
  | c :: rest, prevSpace =>
    if isPySpace c then
      if prevSpace then collapseWS rest true else ' ' :: collapseWS rest true
    else c :: collapseWS rest false

/-- SubtitleTracker._get_movie_key (src/core/tracking.py:46-50):
lower-case, strip, collapse internal whitespace runs to a single space. -/
def get_movie_key (title : String) : String :=
  String.mk (collapseWS (stripChars (pyLower title).data) false)

/-- Bool test that a list starts with the given pattern (used to model
regex literals and Python substring containment). -/
def leadsList : List Char → List Char → Bool
  | [], _ => true
  | _ :: _, [] => false
  | a :: as, b :: bs => a == b && leadsList as bs

/-- Python substring containment (the in operator on str), on char lists. -/
def containsSub (needle : List Char) : List Char → Bool
  | [] => leadsList needle []
  | c :: rest => leadsList needle (c :: rest) || containsSub needle rest

/-- Python substring containment on strings: strContains hay needle is the
Python expression needle in hay. -/
def strContains (hay needle : String) : Bool :=
  containsSub needle.data hay.data

/-- Numeric value of a run of ASCII digits (what Python int does to the
digit groups captured by the regexes in the source). -/
def natOfDigits (ds : List Char) : Nat :=
  ds.foldl (fun acc c => 10 * acc + (c.toNat - '0'.toNat)) 0

/-! ### ReleaseInfoParser: SubSourceDownloader._extract_episode_info_from_subtitle
(src/api/subsource.py:580-616) -/

/-- Match the season/episode regex (letter S, digits, letter E, digits) at the
head of the list; digit runs are maximal, which agrees with the Python regex
because a shorter run would place the following literal on a digit. -/
def matchSEAt (cs : List Char) : Option (Nat × Nat) :=
  match cs with
  | [] => none
  | c :: rest =>
    if c == 'S' || c == 's' then
      let ds1 := rest.takeWhile Char.isDigit
      let rest1 := rest.dropWhile Char.isDigit
      if ds1.isEmpty then none
      else
        match rest1 with
        | [] => none
        | e :: rest2 =>
          if e == 'E' || e == 'e' then
            let ds2 := rest2.takeWhile Char.isDigit
            if ds2.isEmpty then none
            else some (natOfDigits ds1, natOfDigits ds2)
          else none
    else none

/-- Leftmost search for the season/episode pattern, as re.search does. -/
def searchSE : List Char → Option (Nat × Nat)
  | [] => none
  | c :: rest =>
    match matchSEAt (c :: rest) with
    | some r => some r
    | none => searchSE rest

/-- Match the digits-x-digits regex at the head of the list. -/
def matchXAt (cs : List Char) : Option (Nat × Nat) :=
  let ds1 := cs.takeWhile Char.isDigit
  let rest1 := cs.dropWhile Char.isDigit
  if ds1.isEmpty then none
  else
    match rest1 with
    | [] => none
    | x :: rest2 =>
      if x == 'x' then
        let ds2 := rest2.takeWhile Char.isDigit
        if ds2.isEmpty then none else some (natOfDigits ds1, natOfDigits ds2)
      else none

/-- Leftmost search for the digits-x-digits pattern. -/
def searchX : List Char → Option (Nat × Nat)
  | [] => none
  | c :: rest =>
    match matchXAt (c :: rest) with
    | some r => some r
    | none => searchX rest

/-- Match the standalone letter-E-then-digits regex at the head of the list. -/
def matchEAt (cs : List Char) : Option Nat :=
  match cs with
  | [] => none
  | c :: rest =>
    if c == 'E' || c == 'e' then
      let ds := rest.takeWhile Char.isDigit
      if ds.isEmpty then none else some (natOfDigits ds)
    else none

/-- Leftmost search for the standalone episode pattern. -/
def searchE : List Char → Option Nat
  | [] => none
  | c :: rest =>
    match matchEAt (c :: rest) with
    | some r => some r
    | none => searchE rest

/-- SubSourceDownloader._extract_episode_info_from_subtitle
(src/api/subsource.py:580-616): try the S-E pattern, then the x pattern, then
the standalone E pattern, returning the first match; Python int on the digit
groups becomes the nonnegative integer value. -/
def extract_episode_info (release_info : String) : Option Int × Option Int :=
  match searchSE release_info.data with
  | some (s, e) => (some (s : Int), some (e : Int))
  | none =>
    match searchX release_info.data with
    | some (s, e) => (some (s : Int), some (e : Int))
    | none =>
      match searchE release_info.data with
      | some e => (none, some (e : Int))
      | none => (none, none)

/-! ### The tracking ledger: SubtitleTracker (src/core/tracking.py) -/

/-- Abstraction of a stored timestamp string: either a string that
datetime.fromisoformat parses to the integer time t (in seconds), or a string
it rejects with ValueError. The raw rejected string is kept because Python
truthiness of the string (empty versus nonempty) is observable in
should_skip_search. -/
inductive TSVal
  | valid (t : Int)
  | malformed (s : String)
deriving DecidableEq, Repr

/-- datetime.fromisoformat on the abstracted string: the parsed time, or
ValueError (none). -/
def fromisoformat : TSVal → Option Int
  | TSVal.valid t => some t
  | TSVal.malformed _ => none

/-- Python truthiness of the underlying string: every string that parses is
nonempty, a malformed string is truthy exactly when nonempty. -/
def TSVal.truthy : TSVal → Bool
  | TSVal.valid _ => true
  | TSVal.malformed s => s ≠ ""

/-- Python truthiness of an optional string-valued timestamp. -/
def optTruthy : Option TSVal → Bool
  | none => false
  | some v => v.truthy

/-- One per-language record in the ledger. The Python code stores a dict; the
keys it ever writes are exactly the fields below (the key
last_no_subtitles_found tested and deleted in record_subtitles_found is never
written anywhere, so that delete is a no-op and the key needs no field). -/
structure LangEntry where
  language : String
  last_searched : Option TSVal := none
  subtitles_found : Option Int := none
  last_no_subtitles : Option TSVal := none
  last_download_success : Option TSVal := none
  downloaded_filename : Option String := none
  last_download_failure : Option TSVal := none
  last_error : Option String := none
deriving DecidableEq, Repr

/-- SubtitleTracker.data: a JSON object mapping subject key to a list of
per-language records, modelled as an association list in insertion order. -/
abbrev TrackingData := List (String × List LangEntry)

/-- Python dict lookup: first occurrence of the key. -/
def dictGet : TrackingData → String → Option (List LangEntry)
  | [], _ => none
  | (k, v) :: rest, key => if k = key then some v else dictGet rest key

/-- The record_* methods all run: if key not in data, data[key] = []; then
mutate data[key]. On an association list this transforms the first occurrence
of the key, appending the key with the transformed empty list when absent. -/
def dictUpdate : TrackingData → String → (List LangEntry → List LangEntry) → TrackingData
  | [], key, f => [(key, f [])]
  | (k, v) :: rest, key, f =>
    if k = key then (k, f v) :: rest else (k, v) :: dictUpdate rest key f

/-- The shared body of the record_* methods: find the first entry whose
language field equals the requested language and mutate it in place, else
append a fresh entry holding only the language and mutate that. -/
def upsertEntry (f : LangEntry → LangEntry) (language : String) : List LangEntry → List LangEntry
  | [] => [f { language := language }]
  | e :: rest =>
    if e.language = language then f e :: rest else e :: upsertEntry f language rest

/-- SubtitleTracker.record_no_subtitles_found (src/core/tracking.py:52-74).
The timestamp argument stands for datetime.now().isoformat(); year is unused
by the method beyond logging. -/
def record_no_subtitles_found (data : TrackingData) (title : String) (_year : Int)
    (language : String) (ts : TSVal) : TrackingData :=
  dictUpdate data (get_movie_key title)
    (upsertEntry (fun e => { e with last_no_subtitles := some ts }) language)

/-- SubtitleTracker.record_subtitles_found (src/core/tracking.py:76-105). -/
def record_subtitles_found (data : TrackingData) (title : String) (_year : Int)
    (language : String) (count : Int) (ts : TSVal) : TrackingData :=
  dictUpdate data (get_movie_key title)
    (upsertEntry (fun e => { e with last_searched := some ts, subtitles_found := some count })
      language)

/-- SubtitleTracker.record_download_success (src/core/tracking.py:107-135). -/
def record_download_success (data : TrackingData) (title : String) (_year : Int)
    (language : String) (filename : String) (ts : TSVal) : TrackingData :=
  dictUpdate data (get_movie_key title)
    (upsertEntry
      (fun e => { e with last_download_success := some ts, downloaded_filename := some filename })
      language)

/-- SubtitleTracker.record_download_failure (src/core/tracking.py:137-162). -/
def record_download_failure (data : TrackingData) (title : String) (_year : Int)
    (language : String) (error : String) (ts : TSVal) : TrackingData :=
  dictUpdate data (get_movie_key title)
    (upsertEntry
      (fun e => { e with last_download_failure := some ts, last_error := some error })
      language)

/-- Find the first per-language record for the language under the subject key
(the loop shared by both timestamp accessors). -/
def findLangEntry (data : TrackingData) (title : String) (language : String) : Option LangEntry :=
  ((dictGet data (get_movie_key title)).getD []).find? (fun e => e.language == language)

/-- SubtitleTracker.get_last_no_subtitles_timestamp (src/core/tracking.py:164-175). -/
def get_last_no_subtitles_timestamp (data : TrackingData) (title : String) (_year : Int)
    (language : String) : Option TSVal :=
  (findLangEntry data title language).bind (fun e => e.last_no_subtitles)

/-- SubtitleTracker.get_last_success_timestamp (src/core/tracking.py:177-188). -/
def get_last_success_timestamp (data : TrackingData) (title : String) (_year : Int)
    (language : String) : Option TSVal :=
  (findLangEntry data title language).bind (fun e => e.last_download_success)

/-- The straight-line decision body of should_skip_search after the two
lookups: Python truthiness tests on the optional strings, then the parse
guarded by the try/except that converts ValueError into returning False. -/
def should_skip_core (last_success last_no_subs : Option TSVal)
    (hours_threshold : Int) (now : Int) : Bool :=
  if optTruthy last_success then false
  else if !optTruthy last_no_subs then false
  else
    match last_no_subs with
    | none => false
    | some v =>
      match fromisoformat v with
      | none => false
      | some t => decide (now - t < hours_threshold * 3600)

/-- SubtitleTracker.should_skip_search (src/core/tracking.py:190-232); now
stands for datetime.now(). -/
def should_skip_search (data : TrackingData) (title : String) (year : Int)
    (language : String) (hours_threshold : Int) (now : Int) : Bool :=
  should_skip_core
    (get_last_success_timestamp data title year language)
    (get_last_no_subtitles_timestamp data title year language)
    hours_threshold now

/-- Modelled from the spec: cleanup_obsolete_movies, the Ledger operation the
spec names evictObsolete, is called from src/run.py:183 and src/run.py:334 and
exercised by the repository test suite, but the method itself is absent from
src/core/tracking.py. Following section 4.5 of the spec, it removes every
stored subject key absent from the caller-supplied current-key set and
returns the number of keys removed. -/
def cleanup_obsolete_movies (data : TrackingData) (currentKeys : List String) :
    TrackingData × Nat :=
  let kept := data.filter (fun p => currentKeys.contains p.1)
  (kept, data.length - kept.length)

/-- A ledger state holding one english record whose only field is a
no-subtitles failure at time 0 (used in concrete checks below). -/
def failedAtZero : TrackingData :=
  [("movie a", [{ language := "english", last_no_subtitles := some (TSVal.valid 0) }])]

/-- A ledger state whose english record stores the empty string as the last
success timestamp together with a recent failure timestamp. -/
def successEmptyStore : TrackingData :=
  [("movie a", [{ language := "english", last_no_subtitles := some (TSVal.valid 0), last_download_success := some (TSVal.malformed "") }])]

/-! ### CatalogMatcher: series and season selection (src/api/subsource.py) -/

/-- Python truthiness of an optional integer: None and 0 are falsy. -/
def pyTruthyInt : Option Int → Bool
  | none => false
  | some y => y != 0

/-- One element of a series seasons list: season number, link and release
year, each possibly absent from the JSON object. -/
structure SeasonEntry where
  season : Option Int := none
  link : Option String := none
  releaseYear : Option Int := none
deriving DecidableEq, Repr

/-- One search result from the catalog (the fields the matcher reads). -/
structure SeriesResult where
  type : String := ""
  title : String := ""
  releaseYear : Option Int := none
  seasons : List SeasonEntry := []
deriving DecidableEq, Repr

/-- SubSourceDownloader._has_season (src/api/subsource.py:690-709): some
listed season has exactly the target number. -/
def has_season (series : SeriesResult) (season : Int) : Bool :=
  series.seasons.any (fun sd => sd.season == some season)

/-- The initial filter of _find_best_series_match (src/api/subsource.py:639-647):
keep results of type tvseries whose lower-cased title contains the
lower-cased target title. -/
def seriesCandidates (search_results : List SeriesResult) (series_title : String) :
    List SeriesResult :=
  search_results.filter
    (fun r => pyLower r.type == "tvseries" && strContains (pyLower r.title) (pyLower series_title))

/-- SubSourceDownloader._find_best_series_match (src/api/subsource.py:618-688).
The year filter only runs when the year argument is Python-truthy, and when
it matches nothing control falls through to the season/first-candidate
fallback over all filtered candidates. -/
def find_best_series_match (search_results : List SeriesResult) (series_title : String)
    (series_year : Option Int) (season : Int) : Option SeriesResult :=
  let cands := seriesCandidates search_results series_title
  match cands with
  | [] => none
  | [c] => some c
  | _ :: _ :: _ =>
    let fromYear : Option SeriesResult :=
      if pyTruthyInt series_year then
        match cands.filter (fun c => c.releaseYear == series_year) with
        | [] => none
        | [c] => some c
        | c0 :: c1 :: crest =>
          match (c0 :: c1 :: crest).find? (fun c => has_season c season) with
          | some c => some c
          | none => some c0
      else none
    match fromYear with
    | some c => some c
    | none =>
      match cands.find? (fun c => has_season c season) with
      | some c => some c
      | none => cands.head?

/-- Models str.replace on the single-character arguments used by the source
(link.replace rewriting = to -). -/
def replaceChar (s : String) (a b : Char) : String :=
  String.mk (s.data.map (fun c => if c = a then b else c))

/-- Python truthiness of an optional string: None and the empty string are
falsy. -/
def pyTruthyStr : Option String → Bool
  | none => false
  | some s => s != ""

/-- The exact-match loop of _get_season_link (src/api/subsource.py:727-734):
for each listed season, int of its season number (raising TypeError when the
number is absent, modelled as the error case) is compared with the target;
on a match with a truthy link the rewritten link is returned, otherwise the
loop continues. -/
def seasonExactLoop : List SeasonEntry → Int → Except String (Option String)
  | [], _ => Except.ok none
  | sd :: rest, season =>
    match sd.season with
    | none => Except.error "TypeError"
    | some n =>
      if n == season then
        match sd.link with
        | some l => if l != "" then Except.ok (some (replaceChar l '=' '-')) else seasonExactLoop rest season
        | none => seasonExactLoop rest season
      else seasonExactLoop rest season

/-- The release-year fallback loop of _get_season_link
(src/api/subsource.py:748-759): first listed season with a truthy release
year within one year of the series release year and a truthy link. -/
def seasonYearLoop : List SeasonEntry → Int → Option String
  | [], _ => none
  | sd :: rest, y =>
    match sd.releaseYear with
    | some ry =>
      if ry != 0 && (ry - y).natAbs ≤ 1 then
        match sd.link with
        | some l => if l != "" then some (replaceChar l '=' '-') else seasonYearLoop rest y
        | none => seasonYearLoop rest y
      else seasonYearLoop rest y
    | none => seasonYearLoop rest y

/-- SubSourceDownloader._get_season_link (src/api/subsource.py:711-762):
exact season-number match first, then the single-season fallback, then the
release-year fallback; a listed season without a season number makes the
exact-match loop raise TypeError (the error case). -/
def get_season_link (series : SeriesResult) (season : Int) : Except String (Option String) :=
  match series.seasons with
  | [] => Except.ok none
  | first :: rest =>
    match seasonExactLoop (first :: rest) season with
    | Except.error e => Except.error e
    | Except.ok (some l) => Except.ok (some l)
    | Except.ok none =>
      let yearFallback : Option String :=
        match series.releaseYear with
        | some y => if y != 0 then seasonYearLoop (first :: rest) y else none
        | none => none
      if rest.isEmpty then
        match first.link with
        | some l => if l != "" then Except.ok (some (replaceChar l '=' '-')) else Except.ok yearFallback
        | none => Except.ok yearFallback
      else Except.ok yearFallback

/-! ### ReleaseInfoParser: SubSourceDownloader._is_subtitle_match
(src/api/subsource.py:764-794) -/

/-- A subtitle listing, reduced to the field the matcher reads. -/
structure Subtitle where
  release_info : String := ""
deriving DecidableEq, Repr

/-- The episode dict fields read by the matcher. -/
structure EpisodeTarget where
  season : Option Int := none
  episode_number : Option Int := none
  episode : Option Int := none
deriving DecidableEq, Repr

/-- The Python or on optional integers: the left operand when truthy, else
the right. -/
def pyOrInt (a b : Option Int) : Option Int :=
  if pyTruthyInt a then a else b

/-- SubSourceDownloader._is_subtitle_match (src/api/subsource.py:764-794). -/
def is_subtitle_match (subtitle : Subtitle) (target : EpisodeTarget) : Bool :=
  let target_season := target.season
  let target_episode_num := pyOrInt target.episode_number target.episode
  if !pyTruthyInt target_season || !pyTruthyInt target_episode_num then false
  else
    match extract_episode_info subtitle.release_info with
    | (some s, some e) => some s == target_season && some e == target_episode_num
    | (none, some e) => some e == target_episode_num
    | (_, none) => false

/-! ### RetrievalPipeline: archive extraction and fetch
(src/api/subsource.py:186-387) -/

/-- One archive member: its stored name and uncompressed size. -/
structure ZipEntry where
  name : String
  file_size : Nat
deriving DecidableEq, Repr

/-- The recognized subtitle extensions (src/api/subsource.py:319). -/
def subtitle_extensions : List String :=
  [".srt", ".ass", ".ssa", ".sub", ".vtt", ".sbv"]

/-- Suffix test on strings via lists (kernel-reducible str.endswith). -/
def endsWithStr (s suffix : String) : Bool :=
  leadsList suffix.data.reverse s.data.reverse

/-- True when the lower-cased member name carries a recognized subtitle
extension (src/api/subsource.py:322-325). -/
def isSubtitleFile (name : String) : Bool :=
  subtitle_extensions.any (fun ext => endsWithStr (pyLower name) ext)

/-- Python max with a key function: the first element attaining the maximal
key, folding left and replacing only on strictly greater keys. -/
def pyMaxBySize (best : ZipEntry) : List ZipEntry → ZipEntry
  | [] => best
  | e :: rest => pyMaxBySize (if e.file_size > best.file_size then e else best) rest

/-- SubSourceDownloader._extract_subtitle_from_zip (src/api/subsource.py:296-387),
reduced to its selection logic: filter the member list to recognized
subtitle extensions; none found is a failure, a single file is taken as is,
several select the largest by stored uncompressed size. -/
def extract_subtitle_from_zip (file_list : List ZipEntry) : Option ZipEntry :=
  let subtitle_files := file_list.filter (fun f => isSubtitleFile f.name)
  match subtitle_files with
  | [] => none
  | [f] => some f
  | f :: g :: rest => some (pyMaxBySize f (g :: rest))

/-- The responses the fetch sequence can observe: the optional download token
of the details response, the declared content type of the archive response,
and the archive member list, with none standing for an invalid or corrupt
archive (zipfile.BadZipFile). -/
structure FetchEnv where
  download_token : Option String := none
  content_type : String := ""
  archive : Option (List ZipEntry) := none
deriving DecidableEq, Repr

/-- The two network endpoints the fetch sequence can hit. -/
inductive NetRequest
  | details
  | download
deriving DecidableEq, Repr

/-- SubSourceDownloader.download_subtitle (src/api/subsource.py:186-294):
resolve the token from the details response (a missing or falsy token is a
terminal failure), download the archive (an HTML content type is a failure),
extract the payload (a corrupt archive or an archive without a recognized
member is a failure). The request log returned alongside the result records
each network call the run performs, in order. -/
def download_subtitle (env : FetchEnv) : Option ZipEntry × List NetRequest :=
  if !pyTruthyStr env.download_token then (none, [NetRequest.details])
  else
    let reqs := [NetRequest.details, NetRequest.download]
    if strContains (pyLower env.content_type) "text/html" then (none, reqs)
    else
      match env.archive with
      | none => (none, reqs)
      | some entries => (extract_subtitle_from_zip entries, reqs)

/-! ### The search cadence: Bazarr._parse_interval_to_minutes and
Bazarr.get_missing_subtitles_search_interval (src/api/bazarr.py:387-497) -/

/-- Python int on a string: strip whitespace, an optional sign, then a
nonempty digit run (digit-group underscores accepted by Python are not
modelled; no claim input uses them). The error case is ValueError. -/
def pyIntOfChars (cs : List Char) : Except String Int :=
  let t := stripChars cs
  match t with
  | '+' :: rest =>
    if !rest.isEmpty && rest.all Char.isDigit then Except.ok (natOfDigits rest : Int)
    else Except.error "ValueError"
  | '-' :: rest =>
    if !rest.isEmpty && rest.all Char.isDigit then Except.ok (-(natOfDigits rest : Int))
    else Except.error "ValueError"
  | _ =>
    if !t.isEmpty && t.all Char.isDigit then Except.ok (natOfDigits t : Int)
    else Except.error "ValueError"

/-- Python str.isdigit over ASCII: nonempty and all digits. -/
def pyIsDigitChars (cs : List Char) : Bool :=
  !cs.isEmpty && cs.all Char.isDigit

/-- Python str.split on a one-character separator. -/
def splitOnChar (sep : Char) : List Char → List (List Char)
  | [] => [[]]
  | c :: rest =>
    if c = sep then [] :: splitOnChar sep rest
    else
      match splitOnChar sep rest with
      | [] => [[c]]
      | p :: ps => (c :: p) :: ps

/-- Match, at the head of the list, the regex used for the natural-language
cadences: the literal every, one or more whitespace, a digit run, one or more
whitespace, then the unit word (whose final optional s needs no check since
nothing follows it in the pattern). Maximal runs agree with the regex because
a shorter run would place the following character class on a character it
cannot match. -/
def matchEveryAt (unit : List Char) (cs : List Char) : Option Nat :=
  if leadsList ['e', 'v', 'e', 'r', 'y'] cs then
    let rest := cs.drop 5
    let ws1 := rest.takeWhile isPySpace
    let rest1 := rest.dropWhile isPySpace
    if ws1.isEmpty then none
    else
      let ds := rest1.takeWhile Char.isDigit
      let rest2 := rest1.dropWhile Char.isDigit
      if ds.isEmpty then none
      else
        let ws2 := rest2.takeWhile isPySpace
        let rest3 := rest2.dropWhile isPySpace
        if ws2.isEmpty then none
        else if leadsList unit rest3 then some (natOfDigits ds) else none
  else none

/-- Leftmost search for the natural-language cadence pattern. -/
def searchEveryNum (unit : List Char) : List Char → Option Nat
  | [] => none
  | c :: rest =>
    match matchEveryAt unit (c :: rest) with
    | some r => some r
    | none => searchEveryNum unit rest

/-- The weekday names scanned by the weekly branch (src/api/bazarr.py:452-463). -/
def weekdayNames : List String :=
  ["sunday", "monday", "tuesday", "wednesday", "thursday", "friday", "saturday"]

/-- The suffixed and bare-number formats at the end of
_parse_interval_to_minutes (src/api/bazarr.py:483-497); an h suffix is hours,
m minutes, s seconds floor-divided to minutes, a bare digit string is hours,
and anything else raises ValueError. -/
def suffixBranch (s : String) : Except String Int :=
  if endsWithStr s "h" then (pyIntOfChars s.data.dropLast).map (fun n => n * 60)
  else if endsWithStr s "m" then pyIntOfChars s.data.dropLast
  else if endsWithStr s "s" then (pyIntOfChars s.data.dropLast).map (fun n => Int.fdiv n 60)
  else if pyIsDigitChars s.data then (pyIntOfChars s.data).map (fun n => n * 60)
  else Except.error "Unrecognized interval format"

/-- Bazarr._parse_interval_to_minutes (src/api/bazarr.py:418-497): strip and
lower-case, try the natural-language every formats (falling through to the
later checks when the inner regex fails to match), then the colon-delimited
format, then the suffixed and bare-number formats. Errors model the
ValueError raised either explicitly or by int. -/
def parse_interval_to_minutes (interval_str : String) : Except String Int :=
  let s := pyLower (pyStrip interval_str)
  let everyResult : Option Int :=
    if leadsList ['e', 'v', 'e', 'r', 'y'] s.data then
      if strContains s "hours" then
        (searchEveryNum ['h', 'o', 'u', 'r'] s.data).map (fun n => (n : Int) * 60)
      else if strContains s "minutes" then
        (searchEveryNum ['m', 'i', 'n', 'u', 't', 'e'] s.data).map (fun n => (n : Int))
      else if weekdayNames.any (fun d => strContains s d) then some (168 * 60)
      else if strContains s "day" then some (24 * 60)
      else none
    else none
  match everyResult with
  | some m => Except.ok m
  | none =>
    if strContains s ":" then
      match splitOnChar ':' s.data with
      | p0 :: p1 :: _ => do
        let h ← pyIntOfChars p0
        let m ← pyIntOfChars p1
        Except.ok (h * 60 + m)
      | [p0] => do
        let h ← pyIntOfChars p0
        Except.ok (h * 60)
      | [] => suffixBranch s
    else suffixBranch s

/-- The interval handling of Bazarr.get_missing_subtitles_search_interval
(src/api/bazarr.py:387-410) once the search task is found: a falsy interval
string gives the 24-hour default, a parse gives its minutes floor-divided by
60, and an unparseable string gives the 24-hour default. -/
def interval_hours_from_string (interval_str : String) : Int :=
  if interval_str == "" then 24
  else
    match parse_interval_to_minutes interval_str with
    | Except.ok minutes => Int.fdiv minutes 60
    | Except.error _ => 24

/-- The per-language records stored under a subject key (empty when the key
is absent, as Python data.get(key, []) reads it). -/
def entriesAt (data : TrackingData) (k : String) : List LangEntry :=
  (dictGet data k).getD []

/-- The records for one language among the records of a subject key. -/
def langFilter (entries : List LangEntry) (l : String) : List LangEntry :=
  entries.filter (fun e => e.language == l)

/-- The ledger invariant of the spec: at most one record per
(subject key, language) pair. -/
def atMostOnePerPair (data : TrackingData) : Prop :=
  ∀ k l : String, (langFilter (entriesAt data k) l).length ≤ 1

/-- A tvseries candidate titled The Show with release year 1 and no listed
seasons. -/
def c3candA : SeriesResult :=
  { type := "TvSeries", title := "The Show", releaseYear := some 1, seasons := [] }

/-- A tvseries candidate titled The Show with release year 0 and no listed
seasons. -/
def c3candB : SeriesResult :=
  { type := "TvSeries", title := "The Show", releaseYear := some 0, seasons := [] }

/-- The series-selection rule in the words of the claim, amended only in that
a target year of 0 counts as not given (Python truthiness of the year
argument): filter to series-typed candidates whose title contains the target
title case-insensitively; none leaves no match, exactly one is returned; with
a truthy target year, the candidates matching the year exactly are preferred
(a sole survivor is returned, among several the first with the target season,
else the first survivor); otherwise the first filtered candidate with the
target season is returned, else the first filtered candidate. -/
def seriesSelectionSpec (search_results : List SeriesResult) (series_title : String)
    (series_year : Option Int) (season : Int) : Option SeriesResult :=
  let cands := seriesCandidates search_results series_title
  let fallback : Option SeriesResult :=
    match cands.find? (fun c => has_season c season) with
    | some c => some c
    | none => cands.head?
  if cands.isEmpty then none
  else if cands.length = 1 then cands.head?
  else
    let ym := cands.filter (fun c => c.releaseYear == series_year)
    if pyTruthyInt series_year && !ym.isEmpty then
      if ym.length = 1 then ym.head?
      else
        match ym.find? (fun c => has_season c season) with
        | some c => some c
        | none => ym.head?
    else fallback

/-! ### Helper lemmas -/

/-- The Python max fold stays at or above its accumulator. -/
theorem pyMaxBySize_ge_acc (l : List ZipEntry) :
    ∀ best : ZipEntry, best.file_size ≤ (pyMaxBySize best l).file_size := by
  induction l with
  | nil => intro best; exact Nat.le_refl _
  | cons e rest ih =>
    intro best
    simp only [pyMaxBySize]
    by_cases h : e.file_size > best.file_size
    · simp only [h, if_pos]
      exact Nat.le_trans (Nat.le_of_lt h) (ih e)
    · simp only [h, if_neg, if_false]
      exact ih best

/-- The Python max fold returns its accumulator or a list element. -/
theorem pyMaxBySize_mem (l : List ZipEntry) :
    ∀ best : ZipEntry, pyMaxBySize best l = best ∨ pyMaxBySize best l ∈ l := by
  induction l with
  | nil => intro best; exact Or.inl rfl
  | cons e rest ih =>
    intro best
    simp only [pyMaxBySize]
    rcases ih (if e.file_size > best.file_size then e else best) with h | h
    · rw [h]
      by_cases hgt : e.file_size > best.file_size
      · rw [if_pos hgt]
        exact Or.inr (List.mem_cons_self _ _)
      · rw [if_neg hgt]
        exact Or.inl rfl
    · exact Or.inr (List.mem_cons_of_mem _ h)

/-- The Python max fold dominates every list element. -/
theorem pyMaxBySize_ge_mem (l : List ZipEntry) :
    ∀ best g : ZipEntry, g ∈ l → g.file_size ≤ (pyMaxBySize best l).file_size := by
  induction l with
  | nil => intro best g hg; cases hg
  | cons e rest ih =>
    intro best g hg
    simp only [pyMaxBySize]
    rcases List.mem_cons.mp hg with rfl | hg
    · refine Nat.le_trans ?_ (pyMaxBySize_ge_acc rest _)
      by_cases hgt : g.file_size > best.file_size
      · simp [hgt]
      · simp [hgt]
        omega
    · exact ih _ g hg

/-! ### Claim theorems -/

theorem length_filter_add_length_filter_not {α : Type} (p : α → Bool) (l : List α) :
    (l.filter p).length + (l.filter (fun a => !(p a))).length = l.length := by
  induction l with
  | nil => rfl
  | cons a t ih =>
    cases h : p a <;> simp [List.filter_cons, h, ← ih] <;> omega

theorem dictGet_dictUpdate_self (d : TrackingData) (k : String)
    (f : List LangEntry → List LangEntry) :
    dictGet (dictUpdate d k f) k = some (f (entriesAt d k)) := by
  induction d with
  | nil => simp [dictGet, dictUpdate, entriesAt]
  | cons kv rest ih =>
    obtain ⟨k', v⟩ := kv
    by_cases h : k' = k
    · subst h
      simp [dictGet, dictUpdate, entriesAt]
    · simp [dictGet, dictUpdate, entriesAt, h] at ih ⊢
      exact ih

theorem dictGet_dictUpdate_ne (d : TrackingData) (k k' : String)
    (f : List LangEntry → List LangEntry) (hne : k' ≠ k) :
    dictGet (dictUpdate d k f) k' = dictGet d k' := by
  induction d with
  | nil => simp [dictGet, dictUpdate, Ne.symm hne]
  | cons kv rest ih =>
    obtain ⟨k0, v⟩ := kv
    by_cases h : k0 = k
    · subst h
      have : ¬(k0 = k') := fun hc => hne (hc ▸ rfl)
      simp [dictGet, dictUpdate, this]
    · by_cases h2 : k0 = k'
      · subst h2
        simp [dictGet, dictUpdate, h]
      · simp [dictGet, dictUpdate, h, h2]
        exact ih

theorem langFilter_upsert_self (f : LangEntry → LangEntry) (lang : String)
    (hf : ∀ e, (f e).language = e.language) (es : List LangEntry) :
    langFilter (upsertEntry f lang es) lang =
      match langFilter es lang with
      | [] => [f { language := lang }]
      | e :: rest => f e :: rest := by
  induction es with
  | nil =>
    simp [langFilter, upsertEntry, List.filter_cons, hf]
  | cons e rest ih =>
    by_cases he : e.language = lang
    · simp [langFilter, upsertEntry, he, List.filter_cons, hf]
    · have hb : (e.language == lang) = false := by
        simp [he]
      simp [langFilter, upsertEntry, he, List.filter_cons, hb] at ih ⊢
      exact ih

theorem langFilter_upsert_ne (f : LangEntry → LangEntry) (lang l : String)
    (hf : ∀ e, (f e).language = e.language) (hne : l ≠ lang) (es : List LangEntry) :
    langFilter (upsertEntry f lang es) l = langFilter es l := by
  induction es with
  | nil =>
    have h1 : ((f { language := lang }).language == l) = false := by
      rw [hf]
      exact beq_eq_false_iff_ne.mpr (Ne.symm hne)
    simp [langFilter, upsertEntry, List.filter_cons, h1]
  | cons e rest ih =>
    simp only [langFilter] at ih ⊢
    by_cases he : e.language = lang
    · have h1 : ((f e).language == l) = false := by
        rw [hf, he]
        exact beq_eq_false_iff_ne.mpr (Ne.symm hne)
      have h2 : (e.language == l) = false := by
        rw [he]
        exact beq_eq_false_iff_ne.mpr (Ne.symm hne)
      simp only [upsertEntry]
      rw [if_pos he]
      simp [List.filter_cons, h1, h2]
    · simp only [upsertEntry]
      rw [if_neg he]
      cases hb : (e.language == l) <;> simp [List.filter_cons, hb, ih]

theorem record_update_preserves (d : TrackingData) (k : String) (f : LangEntry → LangEntry)
    (lang : String) (hf : ∀ e, (f e).language = e.language) (hinv : atMostOnePerPair d) :
    atMostOnePerPair (dictUpdate d k (upsertEntry f lang)) := by
  intro k' l
  by_cases hk : k' = k
  · subst hk
    rw [entriesAt, dictGet_dictUpdate_self, Option.getD_some]
    by_cases hl : l = lang
    · subst hl
      rw [langFilter_upsert_self f l hf]
      rcases h : langFilter (entriesAt d k') l with _ | ⟨e, rest⟩
      · simp
      · have := hinv k' l
        rw [h] at this
        simp at this
        subst this
        simp
    · rw [langFilter_upsert_ne f lang l hf hl]
      exact hinv k' l
  · rw [entriesAt, dictGet_dictUpdate_ne d k k' _ hk]
    exact hinv k' l

/-- C1 counterexample: the claim states should_skip_search returns False
whenever a success timestamp is recorded for the pair, for every stored
ledger state. In the ledger state successEmptyStore a success timestamp is
recorded (the empty string, which datetime.now().isoformat() never produces
but an arbitrary stored ledger may hold, and which Python truthiness treats
as absent), a recent failure is recorded, and the call returns True. -/
theorem should_skip_search_success_recorded_counterexample :
    should_skip_search successEmptyStore "Movie A" 0 "english" 1 100 = true ∧
    get_last_success_timestamp successEmptyStore "Movie A" 0 "english" =
      some (TSVal.malformed "") :=
  ⟨by decide, by decide⟩

/-- C1 amended: should_skip_search returns True iff no truthy (nonempty)
success timestamp string is recorded for the (subject key, language) pair,
a no-subtitles failure timestamp is recorded and parses as a valid ISO
timestamp, and now minus that timestamp is strictly less than the threshold
hours times 3600 seconds; in every other case it returns False, and being a
total Boolean function it raises nothing to the caller. -/
theorem should_skip_search_iff :
    ∀ (data : TrackingData) (title : String) (year : Int) (language : String)
      (hours : Int) (now : Int),
      should_skip_search data title year language hours now = true ↔
        (optTruthy (get_last_success_timestamp data title year language) = false ∧
          ∃ v t, get_last_no_subtitles_timestamp data title year language = some v ∧
            fromisoformat v = some t ∧ now - t < hours * 3600) := by
  intro data title year language hours now
  unfold should_skip_search should_skip_core
  cases hs : optTruthy (get_last_success_timestamp data title year language) with
  | true => simp [hs]
  | false =>
    rcases hf : get_last_no_subtitles_timestamp data title year language with _ | v
    · simp [hf, optTruthy]
    · cases v with
      | valid t0 =>
        simp [hf, optTruthy, TSVal.truthy, fromisoformat]
      | malformed str =>
        by_cases hse : str = ""
        · subst hse
          simp [hf, optTruthy, TSVal.truthy, fromisoformat]
        · simp [hf, hse, optTruthy, TSVal.truthy, fromisoformat]

/-- C10 counterexample: the claim states that for a cadence parsing below 60
minutes the handed interval is 0 hours and should_skip_search then always
returns False. The cadence every 15 minutes does give a 0-hour interval, yet
with a stored failure timestamp later than now (time 0 against now -1, as a
clock change or an edited ledger can produce) the call returns True. -/
theorem zero_interval_skip_counterexample :
    interval_hours_from_string "every 15 minutes" = 0 ∧
    should_skip_search failedAtZero "Movie A" 0 "english" 0 (-1) = true :=
  ⟨by decide, by decide⟩

/-- C10 amended: the interval handed to the throttle is the parsed cadence
minutes floor-divided by 60, hence 0 hours for every cadence parsing to a
nonnegative value below 60 minutes (such as every 15 minutes), and with a
0-hour threshold should_skip_search returns False whenever the stored failure
timestamp does not lie in the future of now. -/
theorem interval_floor_div_and_zero_window :
    (∀ (s : String) (m : Int), parse_interval_to_minutes s = Except.ok m →
      interval_hours_from_string s = Int.fdiv m 60) ∧
    (∀ (s : String) (m : Int), parse_interval_to_minutes s = Except.ok m →
      0 ≤ m → m < 60 → interval_hours_from_string s = 0) ∧
    (parse_interval_to_minutes "every 15 minutes" = Except.ok 15 ∧
      interval_hours_from_string "every 15 minutes" = 0) ∧
    (∀ (data : TrackingData) (title : String) (year : Int) (language : String) (now : Int),
      (∀ v t, get_last_no_subtitles_timestamp data title year language = some v →
        fromisoformat v = some t → t ≤ now) →
      should_skip_search data title year language 0 now = false) := by
  have hA : ∀ (s : String) (m : Int), parse_interval_to_minutes s = Except.ok m →
      interval_hours_from_string s = Int.fdiv m 60 := by
    intro s m hp
    unfold interval_hours_from_string
    by_cases hs : s = ""
    · subst hs
      have hempty : parse_interval_to_minutes "" =
          Except.error "Unrecognized interval format" := rfl
      rw [hempty] at hp
      cases hp
    · have hb : (s == "") = false := beq_eq_false_iff_ne.mpr hs
      simp [hb, hp]
  refine ⟨hA, ?_, ⟨rfl, by decide⟩, ?_⟩
  · intro s m hp hm0 hm60
    rw [hA s m hp]
    rw [Int.fdiv_eq_ediv _ (by norm_num)]
    exact Int.ediv_eq_zero_of_lt hm0 hm60
  · intro data title year language now hfut
    unfold should_skip_search should_skip_core
    cases hs : optTruthy (get_last_success_timestamp data title year language) with
    | true => simp
    | false =>
      rcases hf : get_last_no_subtitles_timestamp data title year language with _ | v
      · simp [optTruthy]
      · cases v with
        | valid t0 =>
          have := hfut (TSVal.valid t0) t0 hf rfl
          simp [optTruthy, TSVal.truthy, fromisoformat]
          omega
        | malformed str =>
          by_cases hse : str = ""
          · subst hse
            simp [optTruthy, TSVal.truthy]
          · simp [optTruthy, TSVal.truthy, fromisoformat, hse]

/-- C10 witness: the zero-window part applied to the cadence every 15
minutes. -/
theorem interval_floor_div_and_zero_window_witness :
    interval_hours_from_string "every 15 minutes" = 0 :=
  interval_floor_div_and_zero_window.2.1 "every 15 minutes" 15 rfl (by decide) (by decide)

/-- C2: the Ledger eviction operation keeps exactly the stored subject keys
present in the caller-supplied current-key set, removing the rest with their
records untouched, and returns the number of stored keys removed; in
particular, against a ledger with the subject keys Movie A and Movie B, the
call supplying only Movie A removes exactly Movie B and returns 1. -/
theorem cleanup_obsolete_movies_evicts :
    (∀ (data : TrackingData) (ks : List String),
      (∀ kv : String × List LangEntry,
        kv ∈ (cleanup_obsolete_movies data ks).1 ↔ kv ∈ data ∧ ks.contains kv.1 = true) ∧
      (cleanup_obsolete_movies data ks).2 =
        (data.filter (fun p => !(ks.contains p.1))).length) ∧
    (∀ e1 e2 : List LangEntry,
      cleanup_obsolete_movies [("Movie A", e1), ("Movie B", e2)] ["Movie A"] =
        ([("Movie A", e1)], 1)) := by
  constructor
  · intro data ks
    constructor
    · intro kv
      simp [cleanup_obsolete_movies, List.mem_filter]
    · have hsplit := length_filter_add_length_filter_not (fun p : String × List LangEntry =>
        ks.contains p.1) data
      simp only [cleanup_obsolete_movies]
      omega
  · intro e1 e2
    simp [cleanup_obsolete_movies, List.filter_cons]

/-- C9: every ledger-mutating record operation preserves the invariant of at
most one record per (subject key, language) pair, and recording a download
failure twice for the same subject and language leaves exactly one record for
that pair, holding the timestamp of the second call. -/
theorem ledger_record_preserves_invariant :
    (∀ data title year language ts, atMostOnePerPair data →
      atMostOnePerPair (record_no_subtitles_found data title year language ts)) ∧
    (∀ data title year language count ts, atMostOnePerPair data →
      atMostOnePerPair (record_subtitles_found data title year language count ts)) ∧
    (∀ data title year language filename ts, atMostOnePerPair data →
      atMostOnePerPair (record_download_success data title year language filename ts)) ∧
    (∀ data title year language error ts, atMostOnePerPair data →
      atMostOnePerPair (record_download_failure data title year language error ts)) ∧
    (∀ data title year language err1 err2 t1 t2, atMostOnePerPair data →
      ∃ entry : LangEntry,
        langFilter
          (entriesAt
            (record_download_failure
              (record_download_failure data title year language err1 t1)
              title year language err2 t2)
            (get_movie_key title))
          language = [entry] ∧
        entry.last_download_failure = some t2) := by
  refine ⟨?_, ?_, ?_, ?_, ?_⟩
  · intro data title year language ts hinv
    exact record_update_preserves data (get_movie_key title) _ language (fun e => rfl) hinv
  · intro data title year language count ts hinv
    exact record_update_preserves data (get_movie_key title) _ language (fun e => rfl) hinv
  · intro data title year language filename ts hinv
    exact record_update_preserves data (get_movie_key title) _ language (fun e => rfl) hinv
  · intro data title year language error ts hinv
    exact record_update_preserves data (get_movie_key title) _ language (fun e => rfl) hinv
  · intro data title year language err1 err2 t1 t2 hinv
    set k := get_movie_key title with hk
    set f1 : LangEntry → LangEntry :=
      fun e => { e with last_download_failure := some t1, last_error := some err1 } with hf1
    set f2 : LangEntry → LangEntry :=
      fun e => { e with last_download_failure := some t2, last_error := some err2 } with hf2
    have hstep : entriesAt
        (record_download_failure (record_download_failure data title year language err1 t1)
          title year language err2 t2) k =
        upsertEntry f2 language (upsertEntry f1 language (entriesAt data k)) := by
      simp only [record_download_failure, ← hk, ← hf1, ← hf2, entriesAt,
        dictGet_dictUpdate_self, Option.getD_some]
    rw [hstep]
    rw [langFilter_upsert_self f2 language (fun e => rfl)]
    rw [langFilter_upsert_self f1 language (fun e => rfl)]
    rcases h : langFilter (entriesAt data k) language with _ | ⟨e, rest⟩
    · exact ⟨f2 (f1 { language := language }), rfl, rfl⟩
    · have hle := hinv k language
      rw [h] at hle
      simp at hle
      subst hle
      exact ⟨f2 (f1 e), rfl, rfl⟩

/-- C9 witness: the failure-twice part applied to the empty ledger. -/
theorem ledger_record_preserves_invariant_witness :
    ∃ entry : LangEntry,
      langFilter
        (entriesAt
          (record_download_failure
            (record_download_failure [] "Movie A" 2020 "english" "boom" (TSVal.valid 1))
            "Movie A" 2020 "english" "boom again" (TSVal.valid 2))
          (get_movie_key "Movie A"))
        "english" = [entry] ∧
      entry.last_download_failure = some (TSVal.valid 2) :=
  ledger_record_preserves_invariant.2.2.2.2 [] "Movie A" 2020 "english" "boom" "boom again"
    (TSVal.valid 1) (TSVal.valid 2)
    (by simp [atMostOnePerPair, entriesAt, dictGet, langFilter])

/-- C3 counterexample: the claim states that when a target year is given and
exactly one filtered candidate matches it exactly, that candidate is
returned. With the target year 0, candidate c3candB is the sole exact year
match, yet the code returns c3candA: Python truthiness makes the year filter
run only for a nonzero year. -/
theorem find_best_series_match_year_zero_counterexample :
    (seriesCandidates [c3candA, c3candB] "The Show").filter
        (fun c => c.releaseYear == some (0 : Int)) = [c3candB] ∧
    find_best_series_match [c3candA, c3candB] "The Show" (some 0) 1 = some c3candA ∧
    c3candA ≠ c3candB :=
  ⟨by decide, by decide, by decide⟩

/-- C3 amended: series selection equals the deterministic rule of the claim
with a target year of 0 counting as not given: filter to series-typed
candidates whose title contains the target title case-insensitively; if none
remain there is no match, exactly one is returned as is; with a truthy year
the exact-year survivors are preferred (sole survivor returned, among several
the first with the target season, else the first survivor); otherwise the
first filtered candidate holding the target season is returned, else the
first filtered candidate. -/
theorem find_best_series_match_eq_spec :
    ∀ (rs : List SeriesResult) (title : String) (year : Option Int) (season : Int),
      find_best_series_match rs title year season =
        seriesSelectionSpec rs title year season := by
  intro rs title year season
  simp only [find_best_series_match, seriesSelectionSpec]
  rcases hc : seriesCandidates rs title with _ | ⟨c0, _ | ⟨c1, crest⟩⟩
  · simp
  · simp
  · by_cases hy : pyTruthyInt year
    · rcases hym : (c0 :: c1 :: crest).filter (fun c => c.releaseYear == year) with
        _ | ⟨y0, _ | ⟨y1, yrest⟩⟩

      · simp [hy, hym]
      · simp [hy, hym]
      · simp only [hy, hym, Bool.true_and, List.isEmpty_cons, Bool.not_false, if_true]
        rcases hfind : (y0 :: y1 :: yrest).find? (fun c => has_season c season) with _ | c
        · simp [hfind]
        · simp [hfind]
    · simp [hy]

theorem seasonExactLoop_found (season : Int) :
    ∀ (ss : List SeasonEntry) (sd : SeasonEntry) (l : String),
      (∀ e ∈ ss, e.season.isSome) →
      (∀ e ∈ ss, ∃ le, e.link = some le ∧ le ≠ "") →
      ss.find? (fun e => e.season == some season) = some sd →
      sd.link = some l →
      seasonExactLoop ss season = Except.ok (some (replaceChar l '=' '-')) := by
  intro ss
  induction ss with
  | nil =>
    intro sd l _ _ hfind _
    simp at hfind
  | cons e rest ih =>
    intro sd l hs hl hfind hlink
    obtain ⟨n, hn⟩ := Option.isSome_iff_exists.mp (hs e (List.mem_cons_self _ _))
    by_cases hmatch : n = season
    · subst hmatch
      have hp : (e.season == some n) = true := by
        rw [hn]
        exact beq_self_eq_true _
      rw [List.find?_cons, hp] at hfind
      injection hfind with hfind
      subst hfind
      obtain ⟨le, hle, hlene⟩ := hl e (List.mem_cons_self _ _)
      rw [hlink] at hle
      injection hle with hle
      subst hle
      have hbne : (l != "") = true := bne_iff_ne.mpr hlene
      simp [seasonExactLoop, hn, hlink, hbne]
    · have hp : (e.season == some season) = false := by
        rw [hn]
        simp
        exact hmatch
      rw [List.find?_cons, hp] at hfind
      have hrec := ih sd l (fun x hx => hs x (List.mem_cons_of_mem _ hx))
        (fun x hx => hl x (List.mem_cons_of_mem _ hx)) hfind hlink
      have hb : (n == season) = false := beq_eq_false_iff_ne.mpr hmatch
      simp [seasonExactLoop, hn, hb, hrec]

/-- C6: season-locator selection returns the locator of the first listed
season whose number exactly equals the target, with every equals sign in the
locator rewritten to a dash (stated for series whose listed seasons all carry
a season number and a nonempty locator, which the claim presupposes); and
when no season number matches and exactly one season is listed, that sole
locator is returned regardless of the mismatch, which forces the claimed
example of a series listing only season 1 still yielding that locator for
target season 2. -/
theorem get_season_link_selection :
    (∀ (series : SeriesResult) (season : Int) (sd : SeasonEntry) (l : String),
      (∀ e ∈ series.seasons, e.season.isSome) →
      (∀ e ∈ series.seasons, ∃ le, e.link = some le ∧ le ≠ "") →
      series.seasons.find? (fun e => e.season == some season) = some sd →
      sd.link = some l →
      get_season_link series season = Except.ok (some (replaceChar l '=' '-'))) ∧
    (∀ (series : SeriesResult) (season : Int) (sd : SeasonEntry) (n : Int) (l : String),
      series.seasons = [sd] → sd.season = some n → n ≠ season → sd.link = some l → l ≠ "" →
      get_season_link series season = Except.ok (some (replaceChar l '=' '-'))) := by
  constructor
  · intro series season sd l hs hl hfind hlink
    rcases hss : series.seasons with _ | ⟨first, rest⟩
    · rw [hss] at hfind
      simp at hfind
    · rw [hss] at hfind hs hl
      have hloop := seasonExactLoop_found season (first :: rest) sd l hs hl hfind hlink
      simp [get_season_link, hss, hloop]
  · intro series season sd n l hss hn hne hlink hlne
    have hb : (n == season) = false := beq_eq_false_iff_ne.mpr hne
    have hbne : (l != "") = true := bne_iff_ne.mpr hlne
    simp [get_season_link, hss, seasonExactLoop, hn, hb, hlink, hbne]

/-- C6 witness: the single-season fallback applied to a series listing only
season 1 with the locator season=1 and the target season 2. -/
theorem get_season_link_selection_witness :
    get_season_link { seasons := [{ season := some 1, link := some "season=1" }] } 2 =
      Except.ok (some "season-1") := by
  have h := get_season_link_selection.2
    { seasons := [{ season := some 1, link := some "season=1" }] } 2
    { season := some 1, link := some "season=1" } 1 "season=1" rfl rfl (by decide) rfl
    (by decide)
  rw [h]
  exact rfl

/-- C5 counterexample: the claim states isMatch returns True whenever both a
season and an episode were extracted and both equal the target exactly. For
the target season 0, episode 5 (a specials season) and the release text
Show.S00E05 both extracted values equal the target, yet the code returns
False: Python truthiness makes the guard treat the season value 0 as
missing. -/
theorem is_subtitle_match_zero_season_counterexample :
    extract_episode_info "Show.S00E05" = (some 0, some 5) ∧
    is_subtitle_match ⟨"Show.S00E05"⟩ ⟨some 0, some 5, none⟩ = false :=
  ⟨by decide, by decide⟩

/-- C5 amended: isMatch returns True iff the target season is present and
nonzero, the target episode (episode_number when truthy, else episode) is
present and nonzero, and either both season and episode were extracted from
the release text and equal the target pair, or only an episode was extracted
and equals the target episode; in every other case, including a target with
a missing or zero season or episode value, it returns False, and being a
total Boolean function it raises nothing. -/
theorem is_subtitle_match_iff :
    ∀ (sub : Subtitle) (target : EpisodeTarget),
      is_subtitle_match sub target = true ↔
        ∃ s0 e0 : Int, target.season = some s0 ∧ s0 ≠ 0 ∧
          pyOrInt target.episode_number target.episode = some e0 ∧ e0 ≠ 0 ∧
          (extract_episode_info sub.release_info = (some s0, some e0) ∨
            extract_episode_info sub.release_info = (none, some e0)) := by
  intro sub target
  rcases hts : target.season with _ | s0
  · simp [is_subtitle_match, hts, pyTruthyInt]
  · by_cases hs0 : s0 = 0
    · subst hs0
      simp [is_subtitle_match, hts, pyTruthyInt]
    · rcases hep : pyOrInt target.episode_number target.episode with _ | e0
      · simp [is_subtitle_match, hts, hep, pyTruthyInt, hs0]
      · by_cases he0 : e0 = 0
        · subst he0
          simp [is_subtitle_match, hts, hep, pyTruthyInt, hs0]
        · rcases hex : extract_episode_info sub.release_info with ⟨os, oe⟩
          rcases os with _ | s <;> rcases oe with _ | e <;>
            simp [is_subtitle_match, hts, hep, hex, pyTruthyInt, hs0, he0]

/-- C4: extract_episode_info applies its patterns in fixed precedence: the
case-insensitive season-episode pattern yields both numbers, else the
digits-x-digits pattern yields both, else a standalone episode pattern yields
the episode only with the season unknown; S01E01 and 1x01 both map to (1, 1),
and a string containing none of the three patterns maps to (None, None). -/
theorem extract_episode_info_precedence :
    (∀ (s : String) (a b : Nat), searchSE s.data = some (a, b) →
      extract_episode_info s = (some (a : Int), some (b : Int))) ∧
    (∀ (s : String) (a b : Nat), searchSE s.data = none → searchX s.data = some (a, b) →
      extract_episode_info s = (some (a : Int), some (b : Int))) ∧
    (∀ (s : String) (b : Nat), searchSE s.data = none → searchX s.data = none →
      searchE s.data = some b → extract_episode_info s = (none, some (b : Int))) ∧
    (∀ s : String, searchSE s.data = none → searchX s.data = none → searchE s.data = none →
      extract_episode_info s = (none, none)) ∧
    extract_episode_info "S01E01" = (some 1, some 1) ∧
    extract_episode_info "1x01" = (some 1, some 1) := by
  refine ⟨?_, ?_, ?_, ?_, by decide, by decide⟩
  · intro s a b h
    simp [extract_episode_info, h]
  · intro s a b h1 h2
    simp [extract_episode_info, h1, h2]
  · intro s b h1 h2 h3
    simp [extract_episode_info, h1, h2, h3]
  · intro s h1 h2 h3
    simp [extract_episode_info, h1, h2, h3]

/-- C4 witness: the second conjunct applied to the concrete string 1x01. -/
theorem extract_episode_info_precedence_witness :
    extract_episode_info "1x01" = (some 1, some 1) :=
  extract_episode_info_precedence.2.1 "1x01" 1 1 rfl rfl

/-- C7: archive extraction filters the member list to the recognized subtitle
extensions; no match is a failure, a single match is selected as is, several
matches select an entry of maximal stored uncompressed size (the first such,
by the Python max semantics); in particular a zip holding a 10-byte and a
100-byte .srt yields the 100-byte one. -/
theorem extract_subtitle_from_zip_selection :
    (∀ file_list : List ZipEntry,
      let subs := file_list.filter (fun f => isSubtitleFile f.name)
      (subs = [] → extract_subtitle_from_zip file_list = none) ∧
      (∀ f, subs = [f] → extract_subtitle_from_zip file_list = some f) ∧
      (2 ≤ subs.length → ∃ f, extract_subtitle_from_zip file_list = some f ∧
        f ∈ subs ∧ ∀ g ∈ subs, g.file_size ≤ f.file_size)) ∧
    extract_subtitle_from_zip [⟨"a.srt", 10⟩, ⟨"b.srt", 100⟩] = some ⟨"b.srt", 100⟩ := by
  refine ⟨?_, by decide⟩
  intro file_list
  refine ⟨?_, ?_, ?_⟩
  · intro h
    simp [extract_subtitle_from_zip, h]
  · intro f h
    simp [extract_subtitle_from_zip, h]
  · intro h2
    rcases hl : file_list.filter (fun f => isSubtitleFile f.name) with _ | ⟨f, _ | ⟨g, rest⟩⟩
    · rw [hl] at h2; simp at h2
    · rw [hl] at h2; simp at h2
    · refine ⟨pyMaxBySize f (g :: rest), ?_, ?_, ?_⟩
      · simp [extract_subtitle_from_zip, hl]
      · rcases pyMaxBySize_mem (g :: rest) f with h | h
        · rw [h, hl]; exact List.mem_cons_self _ _
        · rw [hl]; exact List.mem_cons_of_mem _ h
      · intro q hq
        rw [hl] at hq
        rcases List.mem_cons.mp hq with rfl | hq
        · exact pyMaxBySize_ge_acc _ _
        · exact pyMaxBySize_ge_mem _ _ _ hq

/-- C7 witness: the no-recognized-member case applied to a concrete archive
holding a single text file. -/
theorem extract_subtitle_from_zip_selection_witness :
    extract_subtitle_from_zip [⟨"readme.txt", 7⟩] = none :=
  (extract_subtitle_from_zip_selection.1 [⟨"readme.txt", 7⟩]).1 (by decide)

/-- C8: the fetch sequence returns a null result, raising nothing to the
caller, when the token-resolution response carries no download token, when
the declared content type of the archive response indicates HTML, when the
archive is corrupt, and when the archive holds no recognized subtitle member;
its request log hits each endpoint at most once, so no retry happens inside
the pipeline in any of these cases. -/
theorem download_subtitle_failure_cases :
    ∀ env : FetchEnv,
      (env.download_token = none → (download_subtitle env).1 = none) ∧
      (strContains (pyLower env.content_type) "text/html" = true →
        (download_subtitle env).1 = none) ∧
      (env.archive = none → (download_subtitle env).1 = none) ∧
      (∀ entries, env.archive = some entries →
        entries.filter (fun f => isSubtitleFile f.name) = [] →
        (download_subtitle env).1 = none) ∧
      ((download_subtitle env).2.count NetRequest.details ≤ 1 ∧
        (download_subtitle env).2.count NetRequest.download ≤ 1) := by
  intro env
  obtain ⟨tok, ct, arch⟩ := env
  by_cases htok : pyTruthyStr tok
  · by_cases hct : strContains (pyLower ct) "text/html"
    · refine ⟨?_, ?_, ?_, ?_, ?_⟩ <;>
        simp [download_subtitle, htok, hct, List.count_cons, List.count_nil]
    · cases arch with
      | none =>
        refine ⟨?_, ?_, ?_, ?_, ?_⟩ <;>
          simp [download_subtitle, htok, hct, List.count_cons, List.count_nil]
      | some entries =>
        refine ⟨?_, ?_, ?_, ?_, ?_⟩
        · intro h
          simp only at h
          rw [h] at htok
          simp [pyTruthyStr] at htok
        · intro h
          exact absurd h hct
        · intro h
          simp at h
        · intro es hes hfil
          have h2 : entries = es := by
            simpa using hes
          subst h2
          simp [download_subtitle, htok, hct, extract_subtitle_from_zip, hfil]
        · simp [download_subtitle, htok, hct, List.count_cons, List.count_nil]
  · refine ⟨?_, ?_, ?_, ?_, ?_⟩ <;>
      simp [download_subtitle, htok, List.count_cons, List.count_nil]

/-- C8 witness: the missing-token case applied to a concrete environment. -/
theorem download_subtitle_failure_cases_witness :
    (download_subtitle { download_token := none, content_type := "", archive := none }).1 =
      none :=
  (download_subtitle_failure_cases
    { download_token := none, content_type := "", archive := none }).1 rfl

end BazarrSubsource
